import Mathlib

/-!
Shallow embedding of the Discourse plugin of metagov
(`metagov/plugins/discourse/models.py`) together with the parts of the
core data model that the plugin relies on (process status values, taken
from the core migrations).

External collaborators (the HTTP stack, the `hmac`/`hashlib` library and
the `json` codec) are modelled as explicit parameters: every function
that performs a remote call receives the remote response as an argument,
and the number of remote requests it issues is reported in its result.
Raised Python exceptions are modelled by an explicit error type.
-/

set_option autoImplicit false

namespace Metagov

/-- Python exceptions raised by the plugin code: `PluginErrorInternal`
(the typed plugin error from `metagov.core.errors`), `KeyError` from a
`dict`/header subscript, `json.JSONDecodeError` from `json.loads`, and
`TypeError` from subscripting `None`. -/
inductive PyError where
  | pluginErrorInternal (msg : String)
  | keyError (key : String)
  | jsonDecodeError
  | typeError
deriving Repr, DecidableEq

/-- Association-list model of a Python `dict` with string keys.
`alistGet` is `d.get(k)` (first matching entry; under the no-duplicate
invariant of Python dicts this is the entry). -/
def alistGet {β : Type} : List (String × β) → String → Option β
  | [], _ => none
  | (k', v) :: rest, k => if k' = k then some v else alistGet rest k

/-- `d[k] = v` on a Python dict: replaces the value of an existing key in
place, otherwise appends the new entry (Python dicts keep insertion
order). -/
def alistSet {β : Type} : List (String × β) → String → β → List (String × β)
  | [], k, v => [(k, v)]
  | (k', v') :: rest, k, v =>
    if k' = k then (k', v) :: rest else (k', v') :: alistSet rest k v

/-- `d.pop(k)`, the removal part: drops every entry with key `k`
(a Python dict has at most one). -/
def alistRemove {β : Type} : List (String × β) → String → List (String × β)
  | [], _ => []
  | (k', v) :: rest, k =>
    if k' = k then alistRemove rest k else (k', v) :: alistRemove rest k

/-- Plugin configuration (`config_schema` of the `Discourse` plugin):
`api_key`, `server_url` and `webhook_secret` are required. -/
structure DiscourseConfig where
  api_key : String
  server_url : String
  webhook_secret : String
deriving Repr, DecidableEq

/-- The `status` values of a governance process. The core migration
`0002_asyncprocess` declares the choices `created`, `pending`,
`completed` with default `created`; `ProcessStatus.X.value` is the
persisted literal string. -/
inductive ProcessStatus where
  | CREATED
  | PENDING
  | COMPLETED
deriving Repr, DecidableEq

/-- The wire/persisted string of a process status. -/
def ProcessStatus.value : ProcessStatus → String
  | .CREATED => "created"
  | .PENDING => "pending"
  | .COMPLETED => "completed"

/-- The `votes` dictionary inside `outcome`: option label to vote count. -/
abbrev VotesDict := List (String × Nat)

/-- One entry of `poll["options"]` in a Discourse poll snapshot:
the option label (`html`) and its vote count (`votes`). -/
structure PollOption where
  html : String
  votes : Nat
deriving Repr, DecidableEq

/-- A remote Discourse poll snapshot as consumed by
`update_outcome_from_discourse_poll`: the `options` list and the poll
`status` string (`"open"` or `"closed"`). -/
structure DiscoursePollData where
  options : List PollOption
  status : String
deriving Repr, DecidableEq

/-- The observable fields of a `DiscoursePoll` governance-process record:
the persisted `status` string, the `outcome` dict (which the plugin uses
with keys `poll_url` and `votes`; an absent key is `none`), and the
private `state` datastore entries set by `start`. -/
structure ProcessRecord where
  status : String
  outcome_poll_url : Option String
  outcome_votes : Option VotesDict
  state_post_id : Option Nat
  state_topic_id : Option Nat
  state_topic_slug : Option String
deriving Repr, DecidableEq

/-- The `for opt in poll["options"]` loop of
`update_outcome_from_discourse_poll`: starting from the stored `votes`
dict, set `votes[opt.html] = opt.votes` for every option whose stored
count differs (`votes.get(key) != val`), and report whether any entry was
written (the `dirty` flag contribution of the loop). -/
def applyVotes (votes : VotesDict) : List PollOption → VotesDict × Bool
  | [] => (votes, false)
  | opt :: rest =>
    if alistGet votes opt.html = some opt.votes then
      applyVotes votes rest
    else
      ((applyVotes (alistSet votes opt.html opt.votes) rest).1, true)

/-- `DiscoursePoll.update_outcome_from_discourse_poll`: merge a remote
poll snapshot into the stored outcome. Returns the record after the call
and whether `self.save()` was executed. Mirrors the source: `votes`
starts from `self.outcome.get("votes", {})`, each differing option count
is written and marks the record dirty, a `"closed"` poll status sets
`status = ProcessStatus.COMPLETED.value` and marks the record dirty
unconditionally, and only a dirty record stores `outcome["votes"]` and is
saved. -/
def updateOutcomeFromDiscoursePoll (p : ProcessRecord) (poll : DiscoursePollData) :
    ProcessRecord × Bool :=
  let r := applyVotes (p.outcome_votes.getD []) poll.options
  if r.2 = true ∨ poll.status = "closed" then
    ({ p with
        status := if poll.status = "closed" then ProcessStatus.COMPLETED.value else p.status
        outcome_votes := some r.1 }, true)
  else
    (p, false)

/-- Result of one governance-process operation: the record after the
call (mutations before a raise are kept, as in Python), the number of
remote HTTP requests the operation issued, whether `self.save()` ran,
and the raised exception if any. -/
structure OpResult where
  record : ProcessRecord
  requests : Nat
  saved : Bool
  error : Option String
deriving Repr, DecidableEq

/-- The remote response consumed by `DiscoursePoll.update` and
`DiscoursePoll.close`: either a non-ok HTTP response with its text, or an
ok response whose parsed body yields the poll object the code extracts
(`response["post_stream"]["posts"][0]["polls"][0]` for `update`,
`resp.json()["poll"]` for `close`). -/
inductive FetchResult where
  | fail (text : String)
  | ok (poll : DiscoursePollData)
deriving Repr, DecidableEq

/-- `DiscoursePoll.update`: unconditionally issues one GET for the topic
(the docstring: a request is made EVERY time, to catch manual closes);
raises `PluginErrorInternal(resp.text)` on a non-ok response, otherwise
reconciles via `update_outcome_from_discourse_poll`. -/
def DiscoursePoll.update (p : ProcessRecord) (resp : FetchResult) : OpResult :=
  match resp with
  | .fail text => ⟨p, 1, false, some text⟩
  | .ok poll =>
    let r := updateOutcomeFromDiscoursePoll p poll
    ⟨r.1, 1, r.2, none⟩

/-- `DiscoursePoll.close`: unconditionally issues one PUT to
`polls/toggle_status`; raises `PluginErrorInternal(resp.text)` on a
non-ok response, otherwise reconciles the returned poll via
`update_outcome_from_discourse_poll`. -/
def DiscoursePoll.close (p : ProcessRecord) (resp : FetchResult) : OpResult :=
  match resp with
  | .fail text => ⟨p, 1, false, some text⟩
  | .ok poll =>
    let r := updateOutcomeFromDiscoursePoll p poll
    ⟨r.1, 1, r.2, none⟩

/-- Input parameters of `DiscoursePoll.start` (`input_schema`: `title`
and `options` required; `details`, `category`, `closing_at` optional,
`none` when absent). -/
structure StartParams where
  title : String
  options : List String
  details : Option String
  category : Option Nat
  closing_at : Option String
deriving Repr, DecidableEq

/-- The `raw` post body built by `DiscoursePoll.start`: optional details,
a `[poll ...]` block with an optional `close=` attribute, the title as a
heading and one `* option` line per option. Python truthiness: an empty
`closing_at` string behaves like an absent one. -/
def buildPollRaw (params : StartParams) : String :=
  let closes_at :=
    match params.closing_at with
    | some s => if s = "" then "" else "close=" ++ s
    | none => ""
  let options := String.join (params.options.map (fun opt => "* " ++ opt ++ "\n"))
  "\n" ++ (params.details.getD "") ++
    "\n[poll type=regular results=always chartType=bar " ++ closes_at ++ "]\n# " ++
    params.title ++ "\n" ++ options ++ "\n[/poll]\n        "

/-- The form payload `start` POSTs to `posts.json`: `raw`, `title`, and
`category` only when the parameter is present and truthy (Python skips a
`0` category). -/
structure StartPayload where
  raw : String
  title : String
  category : Option Nat
deriving Repr, DecidableEq

/-- Builds the payload dict of `DiscoursePoll.start`. -/
def startPayload (params : StartParams) : StartPayload :=
  { raw := buildPollRaw params
    title := params.title
    category :=
      match params.category with
      | some c => if c = 0 then none else some c
      | none => none }

/-- Parsed JSON body of the `posts.json` create response, restricted to
the fields `start` reads: the application-level `errors` list (empty when
absent or empty, both falsy in Python), and the remote identifiers `id`,
`topic_id`, `topic_slug`. -/
structure StartBody where
  errors : List String
  id : Nat
  topic_id : Nat
  topic_slug : String
deriving Repr, DecidableEq

/-- The HTTP response to the create request of `DiscoursePoll.start`. -/
structure StartResp where
  ok : Bool
  text : String
  body : StartBody
deriving Repr, DecidableEq

/-- `DiscoursePoll.start`: builds the poll payload and POSTs it (the one
request reported in the result). On a non-ok response it raises
`PluginErrorInternal(resp.text or "unknown error")`; on an ok response
with a truthy `errors` field it raises `PluginErrorInternal(str(errors))`;
both raises happen before any mutation, so the record is returned
untouched and unsaved. On success it stores `post_id`, `topic_id` and
`topic_slug` in the private state, replaces `outcome` by
`{"poll_url": poll_url}`, sets `status` to `ProcessStatus.PENDING.value`
and saves. -/
def DiscoursePoll.start (cfg : DiscourseConfig) (p : ProcessRecord)
    (params : StartParams) (resp : StartResp) : StartPayload × OpResult :=
  let payload := startPayload params
  if resp.ok = false then
    (payload, ⟨p, 1, false, some (if resp.text = "" then "unknown error" else resp.text)⟩)
  else if resp.body.errors ≠ [] then
    (payload, ⟨p, 1, false, some (String.intercalate ", " resp.body.errors)⟩)
  else
    let poll_url := cfg.server_url ++ "/t/" ++ resp.body.topic_slug ++ "/" ++
      toString resp.body.topic_id
    (payload,
      ⟨{ status := ProcessStatus.PENDING.value
         outcome_poll_url := some poll_url
         outcome_votes := none
         state_post_id := some resp.body.id
         state_topic_id := some resp.body.topic_id
         state_topic_slug := some resp.body.topic_slug }, 1, true, none⟩)

/-- An inbound webhook HTTP request: its headers and its raw body
(the bytes the HMAC is computed over and `json.loads` parses). -/
structure WebhookRequest where
  headers : List (String × String)
  body : String
deriving Repr, DecidableEq

/-- `request.headers.get(k)`. -/
def headerGet (req : WebhookRequest) (k : String) : Option String :=
  alistGet req.headers k

/-- `Discourse.validate_request_signature`, parameterised over the
`hmac`/`hashlib` library: `mac secret body` stands for
`hmac.new(secret, body, hashlib.sha256).hexdigest()`. Returns the raised
exception, or `none` on success. A missing or empty (falsy) signature
header raises `PluginErrorInternal("Missing event signature")`; a digest
mismatch under `hmac.compare_digest` (constant-time equality) raises
`PluginErrorInternal("Invalid signature header")`; a missing
`X-Discourse-Instance` header raises `KeyError` (`headers[...]` is a
subscript, not `.get`); an instance differing from the configured
`server_url` raises `PluginErrorInternal("Unexpected X-Discourse-Instance")`. -/
def validate_request_signature (mac : String → String → String)
    (cfg : DiscourseConfig) (req : WebhookRequest) : Option PyError :=
  match headerGet req "X-Discourse-Event-Signature" with
  | none => some (.pluginErrorInternal "Missing event signature")
  | some sig =>
    if sig = "" then some (.pluginErrorInternal "Missing event signature")
    else
      let expected_signature := "sha256=" ++ mac cfg.webhook_secret req.body
      if sig ≠ expected_signature then
        some (.pluginErrorInternal "Invalid signature header")
      else
        match headerGet req "X-Discourse-Instance" with
        | none => some (.keyError "X-Discourse-Instance")
        | some instanceHeader =>
          if instanceHeader ≠ cfg.server_url then
            some (.pluginErrorInternal "Unexpected X-Discourse-Instance")
          else
            none

/-- The `post` object of a `post_created` webhook body, restricted to the
fields the handler reads (including those `construct_post_url` needs). -/
structure PostJson where
  raw : String
  topic_id : Nat
  id : Nat
  username : String
  topic_slug : String
  post_number : Nat
deriving Repr, DecidableEq

/-- The `topic` object of a `topic_created` webhook body, restricted to
the fields the handler reads. -/
structure TopicJson where
  title : String
  id : Nat
  slug : String
  tags : List String
  category_id : Nat
  created_by_username : String
deriving Repr, DecidableEq

/-- A parsed webhook body: `body.get("post")` and `body.get("topic")`,
`none` when the key is absent. -/
structure WebhookBody where
  post : Option PostJson
  topic : Option TopicJson
deriving Repr, DecidableEq

/-- `Discourse.construct_post_url`. -/
def construct_post_url (cfg : DiscourseConfig) (post : PostJson) : String :=
  cfg.server_url ++ "/t/" ++ post.topic_slug ++ "/" ++ toString post.topic_id ++
    "/" ++ toString post.post_number

/-- `Discourse.construct_topic_url`. -/
def construct_topic_url (cfg : DiscourseConfig) (topic : TopicJson) : String :=
  cfg.server_url ++ "/t/" ++ topic.slug ++ "/" ++ toString topic.id

/-- The data dict of an event forwarded to the driver. -/
inductive EventData where
  | post (raw : String) (topic_id : Nat) (id : Nat) (url : String)
  | topic (title : String) (id : Nat) (tags : List String) (category : Nat) (url : String)
deriving Repr, DecidableEq

/-- One `send_event_to_driver` call: event type, initiator
`(user_id, provider)`, and the data payload. -/
structure Event where
  event_type : String
  initiator_user_id : String
  initiator_provider : String
  data : EventData
deriving Repr, DecidableEq

/-- `Discourse.receive_webhook`, parameterised over the `hmac` library
(`mac`, as in `validate_request_signature`) and the `json` codec
(`jsonLoads s` is `json.loads(s)`, `none` when the raw body is not valid
JSON, in which case Python raises `json.JSONDecodeError`). Validates the
signature first, then reads the `X-Discourse-Event` header, then parses
the body, then dispatches: `post_created` and `topic_created` each emit
one event to the driver (subscripting a missing `post`/`topic` object
raises `TypeError`); any other event type falls through and the function
returns having emitted nothing. Returns the list of emitted events or
the raised exception. -/
def receive_webhook (mac : String → String → String)
    (jsonLoads : String → Option WebhookBody) (cfg : DiscourseConfig)
    (req : WebhookRequest) : Except PyError (List Event) :=
  match validate_request_signature mac cfg req with
  | some e => .error e
  | none =>
    let event := headerGet req "X-Discourse-Event"
    match jsonLoads req.body with
    | none => .error .jsonDecodeError
    | some body =>
      if event = some "post_created" then
        match body.post with
        | none => .error .typeError
        | some post =>
          .ok [⟨"post_created", post.username, "discourse",
            .post post.raw post.topic_id post.id (construct_post_url cfg post)⟩]
      else if event = some "topic_created" then
        match body.topic with
        | none => .error .typeError
        | some topic =>
          .ok [⟨"topic_created", topic.created_by_username, "discourse",
            .topic topic.title topic.id topic.tags topic.category_id
              (construct_topic_url cfg topic)⟩]
      else
        .ok []

/-- An HTTP response as seen by `Discourse.discourse_request`: `resp.ok`,
`resp.status_code`, `resp.text`, and `resp.content` (raw body; the empty
string is falsy). -/
structure HttpResponse where
  ok : Bool
  status_code : Nat
  text : String
  content : String
deriving Repr, DecidableEq

/-- `Discourse.discourse_request`, parameterised over the JSON codec
(`parseJson` is `resp.json()`). On a non-ok response it raises
`PluginErrorInternal(resp.text)` (the status code is only logged); on an
ok response it returns the parsed body, or `None` when the body is
empty. -/
def discourse_request {α : Type} (parseJson : String → α) (resp : HttpResponse) :
    Except String (Option α) :=
  if resp.ok = false then .error resp.text
  else if resp.content ≠ "" then .ok (some (parseJson resp.content))
  else .ok none

/-- A JSON value inside an action `parameters` dict: the handlers only
distinguish strings from arrays of strings. -/
inductive PVal where
  | s (v : String)
  | arr (v : List String)
deriving Repr, DecidableEq

/-- An action `parameters` dict. -/
abbrev ActionParams := List (String × PVal)

/-- `",".join(x)`: over a list it joins the strings; over a Python string
it joins the characters. -/
def joinComma : PVal → String
  | .arr us => String.intercalate "," us
  | .s v => String.intercalate "," (v.data.map (fun c => String.mk [c]))

/-- `parameters.pop("initiator", "system")` of the action handlers:
the username used for the request and the dict after the pop. -/
def popInitiator (ps : ActionParams) : PVal × ActionParams :=
  ((alistGet ps "initiator").getD (.s "system"), alistRemove ps "initiator")

/-- `Discourse.create_message` up to its remote call: pops `initiator`
(default `"system"`), pops `target_usernames` (a bare `pop`, so a missing
key raises `KeyError`), sets `target_recipients` to the comma-join of the
popped value and `archetype` to `"private_message"`, and returns the
username together with the dict that is sent as the request JSON (the
same dict object the caller passed, mutated in place). -/
def create_message (ps : ActionParams) : Except PyError (PVal × ActionParams) :=
  let u := popInitiator ps
  match alistGet u.2 "target_usernames" with
  | none => .error (.keyError "target_usernames")
  | some tu =>
    let ps₁ := alistRemove u.2 "target_usernames"
    let ps₂ := alistSet ps₁ "target_recipients" (.s (joinComma tu))
    let ps₃ := alistSet ps₂ "archetype" (.s "private_message")
    .ok (u.1, ps₃)

/-- `Discourse.create_post` up to its remote call: pops `initiator`
(default `"system"`) and sends the remaining dict. -/
def create_post (ps : ActionParams) : PVal × ActionParams :=
  popInitiator ps

/-- `Discourse.create_topic` up to its remote call: pops `initiator`
(default `"system"`) and sends the remaining dict. -/
def create_topic (ps : ActionParams) : PVal × ActionParams :=
  popInitiator ps

/-! Helper lemmas about the dict model and the vote-merge loop. -/

theorem alistGet_alistSet_self {β : Type} (d : List (String × β)) (k : String) (v : β) :
    alistGet (alistSet d k v) k = some v := by
  induction d with
  | nil => simp [alistSet, alistGet]
  | cons hd tl ih =>
    obtain ⟨k', v'⟩ := hd
    by_cases h : k' = k <;> simp [alistSet, alistGet, h, ih]

theorem alistGet_alistSet_ne {β : Type} (d : List (String × β)) (k k' : String) (v : β)
    (h : k' ≠ k) : alistGet (alistSet d k' v) k = alistGet d k := by
  induction d with
  | nil => simp [alistSet, alistGet, h]
  | cons hd tl ih =>
    obtain ⟨a, b⟩ := hd
    by_cases ha : a = k' <;> by_cases hk : a = k <;>
      simp_all [alistSet, alistGet]

theorem alistGet_alistRemove_self {β : Type} (d : List (String × β)) (k : String) :
    alistGet (alistRemove d k) k = none := by
  induction d with
  | nil => simp [alistRemove, alistGet]
  | cons hd tl ih =>
    obtain ⟨a, b⟩ := hd
    by_cases ha : a = k <;> simp [alistRemove, alistGet, ha, ih]

theorem alistGet_alistRemove_ne {β : Type} (d : List (String × β)) (k k' : String)
    (h : k' ≠ k) : alistGet (alistRemove d k') k = alistGet d k := by
  induction d with
  | nil => simp [alistRemove, alistGet]
  | cons hd tl ih =>
    obtain ⟨a, b⟩ := hd
    by_cases ha : a = k' <;> by_cases hk : a = k <;>
      simp_all [alistRemove, alistGet]

theorem applyVotes_fix (opts : List PollOption) (votes : VotesDict)
    (h : ∀ o ∈ opts, alistGet votes o.html = some o.votes) :
    applyVotes votes opts = (votes, false) := by
  induction opts with
  | nil => rfl
  | cons o rest ih =>
    have ho := h o (List.mem_cons_self o rest)
    simp only [applyVotes, if_pos ho]
    exact ih (fun o' ho' => h o' (List.mem_cons_of_mem _ ho'))

theorem applyVotes_get_of_not_mem (opts : List PollOption) (votes : VotesDict)
    (k : String) (h : k ∉ opts.map PollOption.html) :
    alistGet (applyVotes votes opts).1 k = alistGet votes k := by
  induction opts generalizing votes with
  | nil => rfl
  | cons o rest ih =>
    have hk : o.html ≠ k := by
      intro e
      exact h (by simp [e])
    have hrest : k ∉ rest.map PollOption.html := by
      intro hm
      exact h (by simp [hm])
    by_cases hc : alistGet votes o.html = some o.votes
    · simp only [applyVotes, if_pos hc]
      exact ih votes hrest
    · simp only [applyVotes, if_neg hc]
      rw [ih _ hrest, alistGet_alistSet_ne _ _ _ _ hk]

theorem applyVotes_get_mem (opts : List PollOption) (votes : VotesDict)
    (hnd : (opts.map PollOption.html).Nodup) :
    ∀ o ∈ opts, alistGet (applyVotes votes opts).1 o.html = some o.votes := by
  induction opts generalizing votes with
  | nil => intro o ho; cases ho
  | cons o rest ih =>
    intro o' ho'
    have hnd2 : (o.html :: rest.map PollOption.html).Nodup := by simpa using hnd
    have hnm : o.html ∉ rest.map PollOption.html := (List.nodup_cons.mp hnd2).1
    have hnd' : (rest.map PollOption.html).Nodup := (List.nodup_cons.mp hnd2).2
    rcases List.mem_cons.mp ho' with rfl | hmem
    · by_cases hc : alistGet votes o'.html = some o'.votes
      · simp only [applyVotes, if_pos hc]
        rw [applyVotes_get_of_not_mem rest votes o'.html hnm]
        exact hc
      · simp only [applyVotes, if_neg hc]
        rw [applyVotes_get_of_not_mem rest _ o'.html hnm, alistGet_alistSet_self]
    · by_cases hc : alistGet votes o.html = some o.votes
      · simp only [applyVotes, if_pos hc]
        exact ih votes hnd' o' hmem
      · simp only [applyVotes, if_neg hc]
        exact ih _ hnd' o' hmem

theorem applyVotes_idem (opts : List PollOption) (votes : VotesDict)
    (hnd : (opts.map PollOption.html).Nodup) :
    applyVotes (applyVotes votes opts).1 opts = ((applyVotes votes opts).1, false) :=
  applyVotes_fix opts _ (applyVotes_get_mem opts votes hnd)

theorem applyVotes_snd_false (opts : List PollOption) (votes : VotesDict)
    (h : (applyVotes votes opts).2 = false) :
    (applyVotes votes opts).1 = votes ∧
      ∀ o ∈ opts, alistGet votes o.html = some o.votes := by
  induction opts with
  | nil => exact ⟨rfl, by simp⟩
  | cons o rest ih =>
    by_cases hc : alistGet votes o.html = some o.votes
    · simp only [applyVotes, if_pos hc] at h ⊢
      obtain ⟨h1, h2⟩ := ih h
      refine ⟨h1, fun o' ho' => ?_⟩
      rcases List.mem_cons.mp ho' with rfl | hmem
      · exact hc
      · exact h2 o' hmem
    · simp only [applyVotes, if_neg hc] at h
      exact Bool.noConfusion h

/-- The reconciliation algorithm never moves a completed process out of
the completed status. -/
theorem updateOutcome_status_of_completed (p : ProcessRecord) (poll : DiscoursePollData)
    (h : p.status = "completed") :
    (updateOutcomeFromDiscoursePoll p poll).1.status = "completed" := by
  by_cases hc : poll.status = "closed" <;>
    by_cases hd : (applyVotes (p.outcome_votes.getD []) poll.options).2 = true <;>
    simp [updateOutcomeFromDiscoursePoll, hc, hd, h, ProcessStatus.value]

/-- A snapshot that does not set the dirty flag leaves the record alone
and performs no save. -/
theorem updateOutcome_not_dirty (p : ProcessRecord) (poll : DiscoursePollData)
    (hd : (applyVotes (p.outcome_votes.getD []) poll.options).2 = false)
    (hs : poll.status ≠ "closed") :
    updateOutcomeFromDiscoursePoll p poll = (p, false) := by
  simp [updateOutcomeFromDiscoursePoll, hd, hs]

/-- C1 (counterexample): on a snapshot whose status is `closed`, the code
sets the dirty flag unconditionally, so applying the identical snapshot a
second time saves the record again — the second application does perform
a write. -/
theorem C1_counterexample :
    (updateOutcomeFromDiscoursePoll
      ⟨"pending", some "u", some [("red", 3)], none, none, none⟩
      ⟨[⟨"red", 3⟩], "closed"⟩).2 = true ∧
    (updateOutcomeFromDiscoursePoll
      (updateOutcomeFromDiscoursePoll
        ⟨"pending", some "u", some [("red", 3)], none, none, none⟩
        ⟨[⟨"red", 3⟩], "closed"⟩).1
      ⟨[⟨"red", 3⟩], "closed"⟩).2 = true := by
  decide

/-- C1 (amended): for a snapshot with pairwise-distinct option labels
whose status is not `closed`, reconciliation is idempotent: the second
application of the identical snapshot changes nothing and performs no
write. (A `closed` snapshot sets the dirty flag unconditionally and is
persisted on every application.) -/
theorem C1_reconciliation_idempotent_unless_closed (p : ProcessRecord)
    (poll : DiscoursePollData)
    (hnd : (poll.options.map PollOption.html).Nodup)
    (hs : poll.status ≠ "closed") :
    updateOutcomeFromDiscoursePoll (updateOutcomeFromDiscoursePoll p poll).1 poll =
      ((updateOutcomeFromDiscoursePoll p poll).1, false) := by
  by_cases hd : (applyVotes (p.outcome_votes.getD []) poll.options).2 = true
  · have h1 : updateOutcomeFromDiscoursePoll p poll =
        ({ p with
            outcome_votes := some (applyVotes (p.outcome_votes.getD []) poll.options).1 },
          true) := by
      simp [updateOutcomeFromDiscoursePoll, hd, hs]
    rw [h1]
    have hd2 : (applyVotes
        (({ p with
            outcome_votes := some (applyVotes (p.outcome_votes.getD []) poll.options).1 } :
              ProcessRecord).outcome_votes.getD []) poll.options).2 = false := by
      have := applyVotes_idem poll.options (p.outcome_votes.getD []) hnd
      simpa using congrArg Prod.snd this
    exact updateOutcome_not_dirty _ poll hd2 hs
  · have hd' : (applyVotes (p.outcome_votes.getD []) poll.options).2 = false := by
      simpa using hd
    rw [updateOutcome_not_dirty p poll hd' hs]
    exact updateOutcome_not_dirty p poll hd' hs

/-- C1 (witness): the idempotence theorem applied to a concrete pending
record and a concrete open snapshot. -/
theorem C1_witness :
    updateOutcomeFromDiscoursePoll
        (updateOutcomeFromDiscoursePoll
          ⟨"pending", some "u", none, none, none, none⟩ ⟨[⟨"red", 3⟩], "open"⟩).1
        ⟨[⟨"red", 3⟩], "open"⟩ =
      ((updateOutcomeFromDiscoursePoll
          ⟨"pending", some "u", none, none, none, none⟩ ⟨[⟨"red", 3⟩], "open"⟩).1, false) :=
  C1_reconciliation_idempotent_unless_closed _ _ (by decide) (by decide)

/-- C2 (counterexample): `update` on a COMPLETED process still issues a
remote request; on a failing remote response it raises, and on a
successful response reporting a closed poll it saves the record again. -/
theorem C2_counterexample :
    (DiscoursePoll.update ⟨"completed", some "u", some [("red", 3)], some 1, some 2, some "s"⟩
        (.fail "boom")).requests = 1 ∧
    (DiscoursePoll.update ⟨"completed", some "u", some [("red", 3)], some 1, some 2, some "s"⟩
        (.fail "boom")).error = some "boom" ∧
    (DiscoursePoll.update ⟨"completed", some "u", some [("red", 3)], some 1, some 2, some "s"⟩
        (.ok ⟨[⟨"red", 3⟩], "closed"⟩)).saved = true := by
  decide

/-- C2 (amended): `update` and `close` have no COMPLETED guard: on a
COMPLETED process each still issues exactly one remote request, raises
when the remote call fails (leaving the record untouched and unsaved),
and on success re-applies reconciliation — which never moves the status
away from `completed`. -/
theorem C2_completed_update_close_behavior (p : ProcessRecord) (resp : FetchResult)
    (h : p.status = "completed") :
    (DiscoursePoll.update p resp).requests = 1 ∧
    (DiscoursePoll.close p resp).requests = 1 ∧
    (DiscoursePoll.update p resp).record.status = "completed" ∧
    (DiscoursePoll.close p resp).record.status = "completed" ∧
    ∀ t, resp = .fail t →
      DiscoursePoll.update p resp = ⟨p, 1, false, some t⟩ ∧
      DiscoursePoll.close p resp = ⟨p, 1, false, some t⟩ := by
  cases resp with
  | fail t =>
    refine ⟨rfl, rfl, h, h, ?_⟩
    intro t' ht
    injection ht with e
    subst e
    exact ⟨rfl, rfl⟩
  | ok poll =>
    refine ⟨rfl, rfl, updateOutcome_status_of_completed p poll h,
      updateOutcome_status_of_completed p poll h, ?_⟩
    intro t ht
    exact FetchResult.noConfusion ht

/-- C2 (witness): the amended theorem applied to a concrete completed
record and a failing remote response. -/
theorem C2_witness :
    (DiscoursePoll.update ⟨"completed", none, none, none, none, none⟩
        (.fail "x")).requests = 1 :=
  (C2_completed_update_close_behavior ⟨"completed", none, none, none, none, none⟩
    (.fail "x") rfl).1

/-- C3: when the remote create fails — a non-ok HTTP response or a truthy
application-level `errors` field — `start` raises before any mutation:
the record is returned exactly as it was, unsaved, with its status still
`created`. -/
theorem C3_start_failure_no_mutation (cfg : DiscourseConfig) (p : ProcessRecord)
    (params : StartParams) (resp : StartResp)
    (hfail : resp.ok = false ∨ resp.body.errors ≠ [])
    (hc : p.status = "created") :
    (DiscoursePoll.start cfg p params resp).2.record = p ∧
    (DiscoursePoll.start cfg p params resp).2.saved = false ∧
    (DiscoursePoll.start cfg p params resp).2.error.isSome = true ∧
    (DiscoursePoll.start cfg p params resp).2.record.status = "created" := by
  have key : (DiscoursePoll.start cfg p params resp).2.record = p ∧
      (DiscoursePoll.start cfg p params resp).2.saved = false ∧
      (DiscoursePoll.start cfg p params resp).2.error.isSome = true := by
    rcases hfail with h | h
    · simp [DiscoursePoll.start, h]
    · by_cases hok : resp.ok = false
      · simp [DiscoursePoll.start, hok]
      · simp [DiscoursePoll.start, hok, h]
  exact ⟨key.1, key.2.1, key.2.2, by rw [key.1]; exact hc⟩

/-- C3 (witness): the theorem applied to a concrete created record and a
non-ok remote response. -/
theorem C3_witness :
    (DiscoursePoll.start ⟨"k", "https://e", "w"⟩ ⟨"created", none, none, none, none, none⟩
        ⟨"t", ["a"], none, none, none⟩ ⟨false, "err", ⟨[], 1, 2, "s"⟩⟩).2.record =
      ⟨"created", none, none, none, none, none⟩ :=
  (C3_start_failure_no_mutation ⟨"k", "https://e", "w"⟩
    ⟨"created", none, none, none, none, none⟩ ⟨"t", ["a"], none, none, none⟩
    ⟨false, "err", ⟨[], 1, 2, "s"⟩⟩ (Or.inl rfl) rfl).1

/-- C6: when the remote create succeeds with no application-level errors,
`start` stores `post_id`, `topic_id` and `topic_slug` in the private
state, sets the outcome to exactly the constructed topic URL (no other
outcome field), sets the status to the literal string `pending`, and
saves the record. -/
theorem C6_start_success_persists (cfg : DiscourseConfig) (p : ProcessRecord)
    (params : StartParams) (resp : StartResp)
    (hok : resp.ok = true) (herr : resp.body.errors = []) :
    (DiscoursePoll.start cfg p params resp).2 =
      ⟨⟨"pending",
        some (cfg.server_url ++ "/t/" ++ resp.body.topic_slug ++ "/" ++
          toString resp.body.topic_id),
        none, some resp.body.id, some resp.body.topic_id, some resp.body.topic_slug⟩,
       1, true, none⟩ := by
  simp [DiscoursePoll.start, hok, herr, ProcessStatus.value]

/-- C6 (witness): the theorem applied to a concrete successful create
response. -/
theorem C6_witness :
    (DiscoursePoll.start ⟨"k", "https://e", "w"⟩ ⟨"created", none, none, none, none, none⟩
        ⟨"Pick a color", ["red", "blue"], none, none, none⟩
        ⟨true, "", ⟨[], 7, 9, "pick-a-color"⟩⟩).2 =
      ⟨⟨"pending", some "https://e/t/pick-a-color/9", none, some 7, some 9,
        some "pick-a-color"⟩, 1, true, none⟩ := by
  rw [C6_start_success_persists ⟨"k", "https://e", "w"⟩
    ⟨"created", none, none, none, none, none⟩
    ⟨"Pick a color", ["red", "blue"], none, none, none⟩
    ⟨true, "", ⟨[], 7, 9, "pick-a-color"⟩⟩ rfl rfl]
  decide

/-- C5: reconciliation is a non-destructive merge. For a snapshot with
pairwise-distinct option labels, the record after
`update_outcome_from_discourse_poll` maps every observed option to its
observed count, preserves every stored `votes` entry for a label the
snapshot does not mention, leaves `poll_url` untouched, and has status
`completed` exactly when the snapshot status is `closed` (otherwise the
stored status is kept). -/
theorem C5_outcome_merge (p : ProcessRecord) (poll : DiscoursePollData)
    (hnd : (poll.options.map PollOption.html).Nodup) :
    (∀ o ∈ poll.options,
      alistGet ((updateOutcomeFromDiscoursePoll p poll).1.outcome_votes.getD []) o.html =
        some o.votes) ∧
    (∀ k, k ∉ poll.options.map PollOption.html →
      alistGet ((updateOutcomeFromDiscoursePoll p poll).1.outcome_votes.getD []) k =
        alistGet (p.outcome_votes.getD []) k) ∧
    (updateOutcomeFromDiscoursePoll p poll).1.outcome_poll_url = p.outcome_poll_url ∧
    (updateOutcomeFromDiscoursePoll p poll).1.status =
      (if poll.status = "closed" then "completed" else p.status) := by
  by_cases hdirty : (applyVotes (p.outcome_votes.getD []) poll.options).2 = true ∨
      poll.status = "closed"
  · have h1 : updateOutcomeFromDiscoursePoll p poll =
        ({ p with
            status := if poll.status = "closed" then "completed" else p.status
            outcome_votes := some (applyVotes (p.outcome_votes.getD []) poll.options).1 },
          true) := by
      simp only [updateOutcomeFromDiscoursePoll]
      rw [if_pos hdirty]
      rfl
    rw [h1]
    refine ⟨?_, ?_, rfl, rfl⟩
    · intro o ho
      exact applyVotes_get_mem poll.options _ hnd o ho
    · intro k hk
      exact applyVotes_get_of_not_mem poll.options _ k hk
  · have hn := not_or.mp hdirty
    have hd' : (applyVotes (p.outcome_votes.getD []) poll.options).2 = false := by
      simpa using hn.1
    have hs : poll.status ≠ "closed" := hn.2
    rw [updateOutcome_not_dirty p poll hd' hs]
    refine ⟨?_, fun k _ => rfl, rfl, by rw [if_neg hs]⟩
    intro o ho
    exact (applyVotes_snd_false poll.options _ hd').2 o ho

/-- C5 (witness): the merge theorem applied to a pending record with no
stored votes and the snapshot observing red:3, blue:5 while open. -/
theorem C5_witness :
    alistGet ((updateOutcomeFromDiscoursePoll
        ⟨"pending", some "https://e/t/s/9", none, none, none, none⟩
        ⟨[⟨"red", 3⟩, ⟨"blue", 5⟩], "open"⟩).1.outcome_votes.getD []) "red" = some 3 :=
  (C5_outcome_merge ⟨"pending", some "https://e/t/s/9", none, none, none, none⟩
    ⟨[⟨"red", 3⟩, ⟨"blue", 5⟩], "open"⟩ (by decide)).1 ⟨"red", 3⟩ (by decide)

/-- C7 (counterexample): the error raised on a non-ok response is
`PluginErrorInternal(resp.text)` — two failing responses that differ only
in their status code raise the identical error, so the error does not
carry the status code. -/
theorem C7_counterexample :
    discourse_request (fun s => s) ⟨false, 500, "oops", ""⟩ =
      discourse_request (fun s => s) ⟨false, 404, "oops", ""⟩ ∧
    discourse_request (fun s => s) ⟨false, 500, "oops", ""⟩ = .error "oops" :=
  ⟨rfl, rfl⟩

/-- C7 (amended): `discourse_request` raises an error carrying exactly
the response body text on a non-ok status (the status code is only
logged), returns an empty result on a success status with an empty body,
and returns the parsed JSON on a success status with a non-empty body. -/
theorem C7_discourse_request_behavior {α : Type} (parseJson : String → α)
    (resp : HttpResponse) :
    (resp.ok = false → discourse_request parseJson resp = .error resp.text) ∧
    (resp.ok = true → resp.content = "" → discourse_request parseJson resp = .ok none) ∧
    (resp.ok = true → resp.content ≠ "" →
      discourse_request parseJson resp = .ok (some (parseJson resp.content))) :=
  ⟨fun h => by simp [discourse_request, h],
   fun h hc => by simp [discourse_request, h, hc],
   fun h hc => by simp [discourse_request, h, hc]⟩

/-- C7 (witness): the amended theorem applied to a successful response
with a non-empty body. -/
theorem C7_witness :
    discourse_request (fun s => s) ⟨true, 200, "", "body"⟩ = .ok (some "body") :=
  (C7_discourse_request_behavior (fun s => s) ⟨true, 200, "", "body"⟩).2.2 rfl (by decide)

/-- The expected signature string `"sha256=" ++ digest` is never the
empty (falsy) string. -/
theorem sha256_append_ne_empty (x : String) : "sha256=" ++ x ≠ "" := by
  intro e
  have hlen := congrArg String.length e
  rw [String.length_append] at hlen
  simp at hlen
  exact absurd hlen.1 (by decide)

/-- Any of the three authentication failures — missing/empty signature
header, digest mismatch, or a present-but-different
`X-Discourse-Instance` header — makes `validate_request_signature` raise
`PluginErrorInternal`. -/
theorem validate_auth_error (mac : String → String → String) (cfg : DiscourseConfig)
    (req : WebhookRequest)
    (h : headerGet req "X-Discourse-Event-Signature" = none ∨
         headerGet req "X-Discourse-Event-Signature" = some "" ∨
         (∃ s, headerGet req "X-Discourse-Event-Signature" = some s ∧
            s ≠ "sha256=" ++ mac cfg.webhook_secret req.body) ∨
         (∃ i, headerGet req "X-Discourse-Instance" = some i ∧ i ≠ cfg.server_url)) :
    ∃ msg, validate_request_signature mac cfg req = some (.pluginErrorInternal msg) := by
  cases hsig : headerGet req "X-Discourse-Event-Signature" with
  | none =>
    exact ⟨"Missing event signature", by simp [validate_request_signature, hsig]⟩
  | some s =>
    by_cases hse : s = ""
    · exact ⟨"Missing event signature", by simp [validate_request_signature, hsig, hse]⟩
    · by_cases hmm : s = "sha256=" ++ mac cfg.webhook_secret req.body
      · have hinst : ∃ i, headerGet req "X-Discourse-Instance" = some i ∧
            i ≠ cfg.server_url := by
          rcases h with h | h | ⟨s', hs', hneq⟩ | h
          · rw [hsig] at h; cases h
          · rw [hsig] at h
            injection h with e
            exact absurd e hse
          · rw [hsig] at hs'
            injection hs' with e
            subst e
            exact absurd hmm hneq
          · exact h
        obtain ⟨i, hi, hin⟩ := hinst
        exact ⟨"Unexpected X-Discourse-Instance",
          by simp [validate_request_signature, hsig, hse, hmm, hi, hin,
            sha256_append_ne_empty]⟩
      · exact ⟨"Invalid signature header",
          by simp [validate_request_signature, hsig, hse, hmm]⟩

/-- C4: whenever the signature header is missing (or empty, which Python
treats the same), the digest does not match the HMAC of the raw body, or
the `X-Discourse-Instance` header is present but differs from the
configured `server_url`, `receive_webhook` raises the typed
`PluginErrorInternal` and emits no event — for every body codec, i.e.
before the body is ever parsed. -/
theorem C4_webhook_rejects_bad_auth (mac : String → String → String)
    (jsonLoads : String → Option WebhookBody) (cfg : DiscourseConfig)
    (req : WebhookRequest)
    (h : headerGet req "X-Discourse-Event-Signature" = none ∨
         headerGet req "X-Discourse-Event-Signature" = some "" ∨
         (∃ s, headerGet req "X-Discourse-Event-Signature" = some s ∧
            s ≠ "sha256=" ++ mac cfg.webhook_secret req.body) ∨
         (∃ i, headerGet req "X-Discourse-Instance" = some i ∧ i ≠ cfg.server_url)) :
    ∃ msg, receive_webhook mac jsonLoads cfg req = .error (.pluginErrorInternal msg) := by
  obtain ⟨msg, hv⟩ := validate_auth_error mac cfg req h
  exact ⟨msg, by simp [receive_webhook, hv]⟩

/-- C4 (witness): the theorem applied to a request with no headers at
all (a missing signature header). -/
theorem C4_witness :
    ∃ msg, receive_webhook (fun secret body => secret ++ ":" ++ body)
      (fun _ => some ⟨none, none⟩) ⟨"k", "https://e", "w"⟩ ⟨[], "b"⟩ =
      .error (.pluginErrorInternal msg) :=
  C4_webhook_rejects_bad_auth (fun secret body => secret ++ ":" ++ body)
    (fun _ => some ⟨none, none⟩) ⟨"k", "https://e", "w"⟩ ⟨[], "b"⟩ (Or.inl rfl)

/-- C10: a request whose signature header matches the computed digest but
which lacks the `X-Discourse-Instance` header entirely raises the
untyped `KeyError` of the `headers[...]` subscript (not the typed plugin
error), for every body codec — so the request is rejected before the
body is parsed and no event is emitted. -/
theorem C10_missing_instance_raises_keyerror (mac : String → String → String)
    (jsonLoads : String → Option WebhookBody) (cfg : DiscourseConfig)
    (req : WebhookRequest) (s : String)
    (h1 : headerGet req "X-Discourse-Event-Signature" = some s)
    (h2 : s = "sha256=" ++ mac cfg.webhook_secret req.body)
    (h3 : headerGet req "X-Discourse-Instance" = none) :
    receive_webhook mac jsonLoads cfg req = .error (.keyError "X-Discourse-Instance") := by
  simp [receive_webhook, validate_request_signature, h1, h2, h3, sha256_append_ne_empty]

/-- C10 (witness): the theorem applied to a concrete correctly-signed
request with no `X-Discourse-Instance` header. -/
theorem C10_witness :
    receive_webhook (fun secret body => secret ++ ":" ++ body)
      (fun _ => some ⟨none, none⟩) ⟨"k", "https://e", "w"⟩
      ⟨[("X-Discourse-Event-Signature", "sha256=w:b")], "b"⟩ =
      .error (.keyError "X-Discourse-Instance") :=
  C10_missing_instance_raises_keyerror (fun secret body => secret ++ ":" ++ body)
    (fun _ => some ⟨none, none⟩) ⟨"k", "https://e", "w"⟩
    ⟨[("X-Discourse-Event-Signature", "sha256=w:b")], "b"⟩ "sha256=w:b"
    (by decide) (by decide) (by decide)

/-- C8 (counterexample): a correctly-signed request from the right origin
whose event type is unrecognized still raises when the raw body is not
valid JSON, because `json.loads` runs before the event dispatch — the
call does not return normally. -/
theorem C8_counterexample :
    receive_webhook (fun secret body => secret ++ ":" ++ body)
      (fun s => if s = "goodbody" then some ⟨none, none⟩ else none)
      ⟨"k", "https://e", "w"⟩
      ⟨[("X-Discourse-Event-Signature", "sha256=w:notjson"),
        ("X-Discourse-Instance", "https://e"),
        ("X-Discourse-Event", "ping")], "notjson"⟩ = .error .jsonDecodeError := by
  rfl

/-- C8 (amended): a request that passes signature and origin verification,
whose raw body is valid JSON, and whose event-type header is neither
`post_created` nor `topic_created`, returns normally with no event
emitted. -/
theorem C8_unrecognized_event_ignored (mac : String → String → String)
    (jsonLoads : String → Option WebhookBody) (cfg : DiscourseConfig)
    (req : WebhookRequest) (body : WebhookBody)
    (hval : validate_request_signature mac cfg req = none)
    (hbody : jsonLoads req.body = some body)
    (h1 : headerGet req "X-Discourse-Event" ≠ some "post_created")
    (h2 : headerGet req "X-Discourse-Event" ≠ some "topic_created") :
    receive_webhook mac jsonLoads cfg req = .ok [] := by
  simp [receive_webhook, hval, hbody, h1, h2]

/-- C8 (witness): the amended theorem applied to a concrete verified
request with event type `ping` and a parseable body. -/
theorem C8_witness :
    receive_webhook (fun secret body => secret ++ ":" ++ body)
      (fun s => if s = "goodbody" then some ⟨none, none⟩ else none)
      ⟨"k", "https://e", "w"⟩
      ⟨[("X-Discourse-Event-Signature", "sha256=w:goodbody"),
        ("X-Discourse-Instance", "https://e"),
        ("X-Discourse-Event", "ping")], "goodbody"⟩ = .ok [] :=
  C8_unrecognized_event_ignored (fun secret body => secret ++ ":" ++ body)
    (fun s => if s = "goodbody" then some ⟨none, none⟩ else none)
    ⟨"k", "https://e", "w"⟩
    ⟨[("X-Discourse-Event-Signature", "sha256=w:goodbody"),
      ("X-Discourse-Instance", "https://e"),
      ("X-Discourse-Event", "ping")], "goodbody"⟩ ⟨none, none⟩
    (by decide) (by decide) (by decide) (by decide)

/-- C9: the action handlers mutate the `parameters` dict before the
remote request: all three remove `initiator`, and `create_message`
additionally removes `target_usernames` and adds `target_recipients`
(the comma-join of the removed usernames) and
`archetype = "private_message"`. -/
theorem C9_handlers_mutate_parameters (ps : ActionParams) :
    alistGet (create_post ps).2 "initiator" = none ∧
    alistGet (create_topic ps).2 "initiator" = none ∧
    ∀ us, alistGet ps "target_usernames" = some (.arr us) →
      ∃ u q, create_message ps = .ok (u, q) ∧
        alistGet q "initiator" = none ∧
        alistGet q "target_usernames" = none ∧
        alistGet q "target_recipients" = some (.s (String.intercalate "," us)) ∧
        alistGet q "archetype" = some (.s "private_message") := by
  have hpost : alistGet (alistRemove ps "initiator") "initiator" = none :=
    alistGet_alistRemove_self ps "initiator"
  refine ⟨hpost, hpost, ?_⟩
  intro us h
  have htu : alistGet (alistRemove ps "initiator") "target_usernames" = some (.arr us) := by
    rw [alistGet_alistRemove_ne ps "target_usernames" "initiator" (by decide)]
    exact h
  refine ⟨(alistGet ps "initiator").getD (.s "system"),
    alistSet (alistSet (alistRemove (alistRemove ps "initiator") "target_usernames")
      "target_recipients" (.s (String.intercalate "," us)))
      "archetype" (.s "private_message"), ?_, ?_, ?_, ?_, ?_⟩
  · simp only [create_message, popInitiator]
    rw [htu]
    rfl
  · rw [alistGet_alistSet_ne _ "initiator" "archetype" _ (by decide),
      alistGet_alistSet_ne _ "initiator" "target_recipients" _ (by decide),
      alistGet_alistRemove_ne _ "initiator" "target_usernames" (by decide),
      alistGet_alistRemove_self]
  · rw [alistGet_alistSet_ne _ "target_usernames" "archetype" _ (by decide),
      alistGet_alistSet_ne _ "target_usernames" "target_recipients" _ (by decide),
      alistGet_alistRemove_self]
  · rw [alistGet_alistSet_ne _ "target_recipients" "archetype" _ (by decide),
      alistGet_alistSet_self]
  · rw [alistGet_alistSet_self]

/-- C9 (witness): the theorem applied to a concrete parameters dict,
discharging the `target_usernames` hypothesis of the `create_message`
conjunct at it. -/
theorem C9_witness :
    ∃ u q, create_message [("initiator", PVal.s "alice"),
        ("target_usernames", PVal.arr ["bob", "carol"]), ("title", PVal.s "hi")] =
        .ok (u, q) ∧
      alistGet q "initiator" = none ∧
      alistGet q "target_usernames" = none ∧
      alistGet q "target_recipients" = some (.s (String.intercalate "," ["bob", "carol"])) ∧
      alistGet q "archetype" = some (.s "private_message") :=
  (C9_handlers_mutate_parameters [("initiator", PVal.s "alice"),
    ("target_usernames", PVal.arr ["bob", "carol"]), ("title", PVal.s "hi")]).2.2
    ["bob", "carol"] (by decide)

end Metagov
